import Mathlib

/-!
Shallow embedding of `lackey/RegionMatching.py`: the `Pattern` / `Region` /
`Match` data model, the screen-clipping geometry, the polling search loops
(`exists`, `findAll`, `wait`, `waitVanish`), the FindFailed response protocol,
the raster partitioning (`setRaster` / `getCell`), the `Observer` event
machinery (`check_events`, `getEvents`), and `Screen.__init__`.

Modelling conventions:
* Machine time is an abstract monotone clock `t : ℕ`; `time.sleep` and the
  capture/match work advance it by explicit amounts supplied by a `PollEnv`.
* The external template matcher (`TemplateMatcher`, an out-of-scope
  collaborator per the spec) is modelled as an oracle in `PollEnv`: for the
  k-th capture-and-match attempt it yields `best k` (the `findBestMatch`
  result) or `all k` (the `findAllMatches` result).
* Python exceptions become an explicit `PyError`; every operation returns its
  result together with the final clock value and the total number of
  capture-and-match attempts performed, so timing claims are statable even on
  error paths.
* Python `while` loops that can diverge (the FindFailed RETRY loop) take a
  fuel argument; fuel exhaustion is reported as `PyError.nonTermination` and
  every theorem supplies enough fuel for the real behaviour.
* Updates of `_lastMatch` / `_lastMatchTime` are bookkeeping writes never read
  by any claim and are not threaded through the embedding.
-/

deriving instance DecidableEq for Except

/-- Python exception values raised by the embedded code paths.
`nonTermination` is not a Python error: it models running out of fuel in a
loop that Python would keep executing forever. -/
inductive PyError where
  | findFailed (msg : String)
  | valueError (msg : String)
  | typeError (msg : String)
  | nameError (msg : String)
  | nonTermination
  deriving DecidableEq

/-- The four FindFailed responses (`Region.ABORT` / `SKIP` / `PROMPT` / `RETRY`). -/
inductive FFResponse where
  | abort
  | skip
  | prompt
  | retry
  deriving DecidableEq

/-- An integer rectangle `{x, y, w, h}` (top-left corner plus size), the
coordinate data of a `Region` and of each monitor entry of
`PlatformManager.getScreenDetails()`. -/
structure Rect where
  x : Int
  y : Int
  w : Int
  h : Int
  deriving DecidableEq

/-- The strict no-overlap test used (negated) by `Region.isRegionValid`
(line 895) and by the middle branch of `Region.clipRegionToScreen`
(line 915): `self.x+self.w < s_x or s_x+s_w < self.x or self.y+self.h < s_y
or s_y+s_h < self.y`. -/
def rectsDisjoint (r s : Rect) : Bool :=
  decide (r.x + r.w < s.x) || decide (s.x + s.w < r.x) ||
  decide (r.y + r.h < s.y) || decide (s.y + s.h < r.y)

/-- The containment test of `Region.clipRegionToScreen` (line 912):
`self.x >= s_x and self.x+self.w <= s_x+s_w and self.y >= s_y and
self.y+self.h <= s_y+s_h`. -/
def rectInside (r s : Rect) : Bool :=
  decide (s.x ≤ r.x) && decide (r.x + r.w ≤ s.x + s.w) &&
  decide (s.y ≤ r.y) && decide (r.y + r.h ≤ s.y + s.h)

/-- `Region.isRegionValid` (lines 890-898). The `return True` sits inside the
`for` loop body, so the function returns on the FIRST screen: `some false` if
the region is strictly disjoint from screen 0, `some true` otherwise, and
falls off the end (Python `None`) when the screen list is empty. -/
def isRegionValid (screens : List Rect) (r : Rect) : Option Bool :=
  match screens with
  | [] => none
  | s :: _ => some (!(rectsDisjoint r s))

/-- The screen loop of `Region.clipRegionToScreen` (lines 910-925): for each
screen in order, return the region itself if fully inside, skip a strictly
disjoint screen, and otherwise return
`Region(max(x, s_x), max(y, s_y), min(w, s_w), min(h, s_h))`. -/
def clipLoop (r : Rect) : List Rect → Option Rect
  | [] => none
  | s :: rest =>
    if rectInside r s then some r
    else if rectsDisjoint r s then clipLoop r rest
    else some ⟨max r.x s.x, max r.y s.y, min r.w s.w, min r.h s.h⟩

/-- `Region.clipRegionToScreen` (lines 900-925): `None` unless
`isRegionValid()` is truthy, otherwise the result of the screen loop. -/
def clipRegionToScreen (screens : List Rect) (r : Rect) : Option Rect :=
  if isRegionValid screens r = some true then clipLoop r screens else none

/-- The value data of a `Pattern`: resolved image path, similarity threshold,
and click-target offset. -/
structure PatternData where
  path : String
  similarity : ℚ
  offset : Int × Int
  deriving DecidableEq

/-- `Pattern.__init__` (lines 48-62) for a path that resolves successfully:
similarity starts at `Settings.MinSimilarity` (the `Settings` module is not
part of the matching source, so the value is a parameter `minSim`) and the
offset starts at `Location(0, 0)`.  Re-constructing from an already resolved
absolute path yields the same path, because `os.path.join(d, p)` returns `p`
unchanged when `p` is absolute and the file exists. -/
def Pattern.construct (minSim : ℚ) (path : String) : PatternData :=
  { path := path, similarity := minSim, offset := (0, 0) }

/-- `Pattern.similar` (lines 64-68): builds `Pattern(self.path)` afresh (which
resets the offset to `(0, 0)`) and then overwrites only the similarity. -/
def PatternData.similar (minSim : ℚ) (p : PatternData) (s : ℚ) : PatternData :=
  let q := Pattern.construct minSim p.path
  { q with similarity := s }

/-- `Pattern.exact` (lines 70-74): builds `Pattern(self.path)` afresh and sets
the similarity to `1.0`. -/
def PatternData.exact (minSim : ℚ) (p : PatternData) : PatternData :=
  let q := Pattern.construct minSim p.path
  { q with similarity := 1 }

/-- `Pattern.targetOffset` (lines 76-81): builds `Pattern(self.path)` afresh,
copies the similarity from `self`, and sets the new offset. -/
def PatternData.targetOffset (minSim : ℚ) (p : PatternData) (dx dy : Int) :
    PatternData :=
  let q := Pattern.construct minSim p.path
  { q with similarity := p.similarity, offset := (dx, dy) }

/-- A `Match` value: the matched bounding box (a `Region` rect), the matcher
confidence score, and the click-target offset copied from the pattern
(`Match.__init__`, lines 1460-1467). -/
structure Mtch where
  x : Int
  y : Int
  w : Int
  h : Int
  score : ℚ
  targetOffset : Int × Int
  deriving DecidableEq

/-- The environment of one polling call: the external matcher oracle and the
clock costs.  `best k` / `all k` are the `TemplateMatcher` results of the k-th
capture-and-match attempt (`findBestMatch` returns `(position, confidence)`
or `None`; `findAllMatches` returns a list of the same); `dur k` is the time
the k-th capture and match takes; `slp` is the duration of
`time.sleep(1/scanRate)`, which is strictly positive in reality; `needleW` /
`needleH` are the dimensions of the needle image loaded by `cv2.imread`. -/
structure PollEnv where
  best : ℕ → Option ((Int × Int) × ℚ)
  all : ℕ → List ((Int × Int) × ℚ)
  dur : ℕ → ℕ
  slp : ℕ
  needleW : Int
  needleH : Int

/-- Builds the `Match` object of `Region.exists` (lines 554-560) /
`Region.findAll` (lines 447-451): the matcher position is translated by
`self.x` / `self.y` and paired with the needle dimensions, the confidence,
and `pattern.offset`. -/
def mkMatch (rect : Rect) (p : PatternData) (env : PollEnv)
    (pos : Int × Int) (conf : ℚ) : Mtch :=
  { x := pos.1 + rect.x, y := pos.2 + rect.y,
    w := env.needleW, h := env.needleH,
    score := conf, targetOffset := p.offset }

/-- The `Region` state relevant to the search, FindFailed, and raster claims.
`handler` models `_findFailedHandler` by its observable effect: `none` when no
handler is registered, `some r` when a handler is registered and leaves
`event._response` equal to `r` (so `some none` is a handler that sets no
explicit response). -/
structure RegionState where
  rect : Rect
  autoWaitTimeout : ℕ
  throwException : Bool
  findFailedResponse : FFResponse
  handler : Option (Option FFResponse)
  raster : ℕ × ℕ
  deriving DecidableEq

/-- The state set up by `Region.__init__` (lines 112-126): timeout `3.0`,
`_throwException = True`, `_findFailedResponse = "ABORT"`, no handler,
raster `(0, 0)`. -/
def Region.initState (r : Rect) : RegionState :=
  { rect := r, autoWaitTimeout := 3, throwException := true,
    findFailedResponse := .abort, handler := none, raster := (0, 0) }

/-- `Region.setThrowException` (lines 1260-1269): `True` sets the pair
(`_throwException = True`, `_findFailedResponse = "ABORT"`), `False` sets
(`False`, `"SKIP"`). -/
def setThrowException (setting : Bool) (st : RegionState) : RegionState :=
  if setting then
    { st with throwException := true, findFailedResponse := .abort }
  else
    { st with throwException := false, findFailedResponse := .skip }

/-- `Region._raiseFindFailed` (lines 1274-1291): run the custom handler if
registered, take `event._response or self._findFailedResponse`; `PROMPT`
calls the bare global name `_findFailedPrompt` (line 1284), which does not
exist at module level, so it raises `NameError`; `ABORT` raises `FindFailed`;
`SKIP` returns `False` (do not retry); `RETRY` returns `True`. -/
def raiseFindFailed (st : RegionState) (msg : String) : Except PyError Bool :=
  let response :=
    match st.handler with
    | some r => r.getD st.findFailedResponse
    | none => st.findFailedResponse
  match response with
  | .prompt => .error (.nameError "name _findFailedPrompt is not defined")
  | .abort => .error (.findFailed msg)
  | .skip => .ok false
  | .retry => .ok true

/-- A polling-operation outcome: the Python result or exception, the clock at
the end, and the total number of capture-and-match attempts performed. -/
abbrev OpResult (α : Type) := Except PyError α × ℕ × ℕ

/-- The polling loop of `Region.exists` (lines 543-548): `while not match:`
capture and match, sleep, then `if time.time() > timeout: break`.  The loop
body runs before the deadline is consulted.  Arguments: clock `t`, attempt
counter `k`, fuel. -/
def existsLoop (env : PollEnv) (deadline : ℕ) :
    ℕ → ℕ → ℕ → Option ((Int × Int) × ℚ) × ℕ × ℕ
  | t, k, 0 => (none, t, k)
  | t, k, fuel + 1 =>
    let t' := t + env.dur k + env.slp
    match env.best k with
    | some m => (some m, t', k + 1)
    | none =>
      if deadline < t' then (none, t', k + 1)
      else existsLoop env deadline t' (k + 1) fuel

/-- `Region.exists` (lines 512-570) for a valid `Pattern` argument: clip the
region to the screen (raising `ValueError` when it is outside all screens),
default the timeout to `autoWaitTimeout`, set `timeout = time.time() +
seconds`, run the polling loop, and on success build the translated `Match`. -/
def regionExists (screens : List Rect) (st : RegionState) (p : PatternData)
    (env : PollEnv) (seconds : Option ℕ) (t k fuel : ℕ) :
    OpResult (Option Mtch) :=
  match clipRegionToScreen screens st.rect with
  | none => (.error (.valueError "Region outside all visible screens"), t, k)
  | some _r =>
    let s := seconds.getD st.autoWaitTimeout
    let (res, t', k') := existsLoop env (t + s) t k fuel
    match res with
    | none => (.ok none, t', k')
    | some (pos, conf) => (.ok (some (mkMatch st.rect p env pos conf)), t', k')

/-- The `findFailedRetry` loop of `Region.find` (lines 400-407): call
`exists` with the default timeout; on a match stop; otherwise resolve via
`_raiseFindFailed` and retry exactly when it returns `True`. -/
def findLoop (screens : List Rect) (st : RegionState) (p : PatternData)
    (env : PollEnv) (existsFuel : ℕ) : ℕ → ℕ → ℕ → OpResult (Option Mtch)
  | t, k, 0 => (.error .nonTermination, t, k)
  | t, k, retryFuel + 1 =>
    match regionExists screens st p env none t k existsFuel with
    | (.error e, t', k') => (.error e, t', k')
    | (.ok (some m), t', k') => (.ok (some m), t', k')
    | (.ok none, t', k') =>
      match raiseFindFailed st ("Could not find pattern " ++ p.path) with
      | .error e => (.error e, t', k')
      | .ok true => findLoop screens st p env existsFuel t' k' retryFuel
      | .ok false => (.ok none, t', k')

/-- `Region.find` (lines 394-407). -/
def regionFind (screens : List Rect) (st : RegionState) (p : PatternData)
    (env : PollEnv) (t k existsFuel retryFuel : ℕ) : OpResult (Option Mtch) :=
  findLoop screens st p env existsFuel t k retryFuel

/-- The polling loop of `Region.findAll` (lines 433-436):
`while time.time() < timeout and len(matches) == 0:` capture, match all,
sleep.  The deadline is consulted BEFORE the first attempt. -/
def findAllLoop (env : PollEnv) (deadline : ℕ) :
    ℕ → ℕ → ℕ → List ((Int × Int) × ℚ) × ℕ × ℕ
  | t, k, 0 => ([], t, k)
  | t, k, fuel + 1 =>
    if t < deadline then
      match env.all k with
      | [] => findAllLoop env deadline (t + env.dur k + env.slp) (k + 1) fuel
      | m :: ms => (m :: ms, t + env.dur k + env.slp, k + 1)
    else ([], t, k)

/-- `Region.findAll` (lines 408-455) for a valid `Pattern` argument: clip to
screen (`ValueError` if outside), use `seconds = self.autoWaitTimeout` (there
is no timeout parameter), run the loop, and return the translated matches
(an empty list, not an error, when nothing was found). -/
def regionFindAll (screens : List Rect) (st : RegionState) (p : PatternData)
    (env : PollEnv) (t k fuel : ℕ) : OpResult (List Mtch) :=
  match clipRegionToScreen screens st.rect with
  | none => (.error (.valueError "Region outside all visible screens"), t, k)
  | some _r =>
    let (ms, t', k') := findAllLoop env (t + st.autoWaitTimeout) t k fuel
    (.ok (ms.map fun pc => mkMatch st.rect p env pc.1 pc.2), t', k')

/-- The polling loop of `Region.waitVanish` (lines 501-508): `match = True`,
then `while match and time.time() < timeout:` capture and take the best
match, sleep.  The deadline is consulted BEFORE the first attempt, and `m`
holds the truthiness of the last matcher result. -/
def waitVanishLoop (env : PollEnv) (deadline : ℕ) :
    Bool → ℕ → ℕ → ℕ → Bool × ℕ × ℕ
  | m, t, k, 0 => (m, t, k)
  | m, t, k, fuel + 1 =>
    if m ∧ t < deadline then
      waitVanishLoop env deadline (env.best k).isSome
        (t + env.dur k + env.slp) (k + 1) fuel
    else (m, t, k)

/-- `Region.waitVanish` (lines 483-511) for a valid `Pattern` argument: clip
to screen (`ValueError` if outside), default the timeout, run the loop; then
`if match: return False` and otherwise fall off the end returning Python
`None` (modelled as `none`; the result type is `Option Bool`, never `true`).
The `FindFailed` handler line is commented out in the source. -/
def regionWaitVanish (screens : List Rect) (st : RegionState) (p : PatternData)
    (env : PollEnv) (seconds : Option ℕ) (t k fuel : ℕ) :
    OpResult (Option Bool) :=
  match clipRegionToScreen screens st.rect with
  | none => (.error (.valueError "Region outside all visible screens"), t, k)
  | some _r =>
    let s := seconds.getD st.autoWaitTimeout
    let (m, t', k') := waitVanishLoop env (t + s) true t k fuel
    if m then (.ok (some false), t', k') else (.ok none, t', k')

/-- The inner `while True:` loop of `Region.wait` (lines 474-479): call
`exists` (with its own default timeout), return the match if any, otherwise
`if time.time() >= timeout: break`. -/
def waitInner (screens : List Rect) (st : RegionState) (p : PatternData)
    (env : PollEnv) (deadline existsFuel : ℕ) :
    ℕ → ℕ → ℕ → OpResult (Option Mtch)
  | t, k, 0 => (.error .nonTermination, t, k)
  | t, k, fuel + 1 =>
    match regionExists screens st p env none t k existsFuel with
    | (.error e, t', k') => (.error e, t', k')
    | (.ok (some m), t', k') => (.ok (some m), t', k')
    | (.ok none, t', k') =>
      if deadline ≤ t' then (.ok none, t', k')
      else waitInner screens st p env deadline existsFuel t' k' fuel

/-- `Region.wait` (lines 457-482) for a valid `Pattern` argument: set
`timeout = time.time() + seconds` (default `autoWaitTimeout`), run the inner
loop; when it breaks without a match, line 481 evaluates the bare global name
`_raiseFindFailed` (not `self._raiseFindFailed`), which does not exist at
module level, so `wait` raises `NameError` instead of consulting the
FindFailed protocol. -/
def regionWait (screens : List Rect) (st : RegionState) (p : PatternData)
    (env : PollEnv) (seconds : Option ℕ) (t k existsFuel innerFuel : ℕ) :
    OpResult (Option Mtch) :=
  match waitInner screens st p env (t + seconds.getD st.autoWaitTimeout)
      existsFuel t k innerFuel with
  | (.error e, t', k') => (.error e, t', k')
  | (.ok (some m), t', k') => (.ok (some m), t', k')
  | (.ok none, t', k') =>
    (.error (.nameError "name _raiseFindFailed is not defined"), t', k')

/-- Python `int()` applied to a float / rational value: truncation toward
zero (used by `Region.setROI` via `setX(int(x))` etc., lines 128-139).
`Int.div` is T-division, which rounds toward zero exactly like `int()`. -/
def pyInt (q : ℚ) : Int :=
  Int.tdiv q.num (q.den : Int)

/-- The index normalisation of `Region.getCell` (lines 1009-1026), identical
for rows and columns: a negative index becomes `count - index` (and, were
that still negative, `count`); an index strictly greater than `count` becomes
`0`; anything else passes through. -/
def getCellIndex (count : ℕ) (i : Int) : Int :=
  if i < 0 then
    let i2 := (count : Int) - i
    if i2 < 0 then (count : Int) else i2
  else if i > (count : Int) then 0 else i

/-- `Region.setRaster` (lines 951-958): coerce to int, keep the old raster
when either dimension is `<= 0`, otherwise store `(rows, columns)`.  (The
source then returns `getCell(0, 0)`; only the stored raster matters here.) -/
def setRaster (raster : ℕ × ℕ) (rows columns : Int) : ℕ × ℕ :=
  if rows ≤ 0 ∨ columns ≤ 0 then raster
  else (rows.toNat, columns.toNat)

/-- `Region.getCell` (lines 1001-1027).  Note line 1007/1008 of the source:
`rowHeight = self.h / self._raster[0]` and
`columnWidth = self.h / self._raster[1]` — BOTH divide `self.h`; the column
width is computed from the region HEIGHT, not its width.  Python 3 `/` is
exact real division here, truncated by `int()` in the `Region` constructor;
rationals model it exactly for inputs where the float arithmetic is exact
(all divisions in the theorems below are exact). -/
def getCell (r : Rect) (raster : ℕ × ℕ) (row column : Int) : Rect :=
  if raster.1 = 0 ∨ raster.2 = 0 then r
  else
    let rowHeight : ℚ := (r.h : ℚ) / (raster.1 : ℚ)
    let columnWidth : ℚ := (r.h : ℚ) / (raster.2 : ℚ)
    let c := getCellIndex raster.2 column
    let rw := getCellIndex raster.1 row
    { x := pyInt ((r.x : ℚ) + (c : ℚ) * columnWidth),
      y := pyInt ((r.y : ℚ) + (rw : ℚ) * rowHeight),
      w := pyInt columnWidth,
      h := pyInt rowHeight }

/-- Membership of an integer point in a rectangle (top-left inclusive,
bottom-right exclusive); a statement-side helper for the tiling claim. -/
def Rect.containsPt (r : Rect) (px py : Int) : Bool :=
  decide (r.x ≤ px) && decide (px < r.x + r.w) &&
  decide (r.y ≤ py) && decide (py < r.y + r.h)

/-- The three watcher kinds supported by `Observer` (line 1306). -/
inductive WatchKind where
  | appear
  | vanish
  | change
  deriving DecidableEq

/-- One registered watcher: the event dict built by
`Observer.register_event` (lines 1336-1343), with the handler modelled by
whether a callable was supplied. -/
structure WatchEvent where
  kind : WatchKind
  count : ℕ
  hasHandler : Bool
  active : Bool
  deriving DecidableEq

/-- An `ObserveEvent` object as appended to `caught_events` by
`Observer.check_events`: its event type and the occurrence count it was built
with.  Note that `ObserveEvent.__init__` (lines 1397-1404) stores NO
watcher name and defines no `__getitem__`. -/
structure ObserveEventV where
  kind : WatchKind
  count : ℕ
  deriving DecidableEq

/-- The `Observer` state relevant to the event claims: the registered
watchers in registration order (Python dicts iterate in insertion order) and
the `caught_events` queue. -/
structure ObsState where
  events : List WatchEvent
  caughtEvents : List ObserveEventV
  deriving DecidableEq

/-- One watcher step of `Observer.check_events` (lines 1347-1394).  `sig` is
the poll signal for this watcher: `exists(pattern, 0)` truthiness for APPEAR
and VANISH, `isChanged(...)` for CHANGE.  Returns the updated watcher, the
events appended to `caught_events` (zero or one), and whether the handler
was invoked.  An APPEAR firing appends the event UNCONDITIONALLY (there is no
`else` before line 1363), while VANISH and CHANGE append only when no
callable handler exists (`else` at lines 1375 and 1390). -/
def checkOne (sig : Bool) (w : WatchEvent) :
    WatchEvent × List ObserveEventV × Bool :=
  if w.active = false then (w, [], false)
  else
    match w.kind with
    | .appear =>
      if sig then
        ({ w with count := w.count + 1, active := false },
         [⟨.appear, w.count⟩], w.hasHandler)
      else (w, [], false)
    | .vanish =>
      if !sig then
        ({ w with count := w.count + 1, active := false },
         if w.hasHandler then [] else [⟨.vanish, w.count⟩], w.hasHandler)
      else (w, [], false)
    | .change =>
      if sig then
        ({ w with count := w.count + 1, active := false },
         if w.hasHandler then [] else [⟨.change, w.count⟩], w.hasHandler)
      else (w, [], false)

/-- The watcher iteration of `Observer.check_events`, in registration order;
`i` indexes the signals.  Returns the updated watcher list, the events to
append to `caught_events`, and the indices whose handlers were invoked. -/
def checkEventsGo (sig : ℕ → Bool) :
    ℕ → List WatchEvent → List WatchEvent × List ObserveEventV × List ℕ
  | _, [] => ([], [], [])
  | i, w :: ws =>
    let (w', q, h) := checkOne (sig i) w
    let (ws', qs, hs) := checkEventsGo sig (i + 1) ws
    (w' :: ws', q ++ qs, (if h then [i] else []) ++ hs)

/-- `Observer.check_events` (lines 1347-1394): one full check cycle over the
registered watchers.  Returns the new state and the indices of the watchers
whose handlers were invoked synchronously during the cycle. -/
def check_events (sig : ℕ → Bool) (s : ObsState) : ObsState × List ℕ :=
  let (ws, qs, hs) := checkEventsGo sig 0 s.events
  ({ events := ws, caughtEvents := s.caughtEvents ++ qs }, hs)

/-- `Region.getEvents` (lines 1202-1211): take `caught_events`, reset the
queue to `[]`, then `for event in caught_events:
self._observer.activate_event(event["name"])`.  The drained entries are
`ObserveEvent` OBJECTS (appended by `check_events`), not dicts, and the class
defines no `__getitem__`, so the first iteration of the loop raises
`TypeError`; the queue has already been cleared when it does. -/
def getEvents (s : ObsState) : Except PyError (List ObserveEventV) × ObsState :=
  let s' := { s with caughtEvents := [] }
  match s.caughtEvents with
  | [] => (.ok [], s')
  | _ :: _ => (.error (.typeError "ObserveEvent object is not subscriptable"), s')

/-- A Python value passed as the `screenId` argument of `Screen.__init__`.
Python `bool` is a subclass of `int`, so `True` / `False` are covered by
`int 1` / `int 0`. -/
inductive PyVal where
  | int (n : Int)
  | str (s : String)
  | noneV
  | float (q : ℚ)
  deriving DecidableEq

/-- The fields of a constructed `Screen`. -/
structure ScreenState where
  screenId : Int
  rect : Rect
  deriving DecidableEq

/-- Modelled from the spec: the bounding box of the union of all monitors,
the "virtual screen" that `getScreenBounds(-1)` denotes ("`-1` denoting the
union of all monitors").  `PlatformManagerWindows` is not part of the
matching source. -/
def virtualScreenBounds (screens : List Rect) : Rect :=
  match screens with
  | [] => ⟨0, 0, 0, 0⟩
  | s :: rest =>
    let f := fun (acc : Int × Int × Int × Int) (m : Rect) =>
      (min acc.1 m.x, min acc.2.1 m.y,
       max acc.2.2.1 (m.x + m.w), max acc.2.2.2 (m.y + m.h))
    let b := rest.foldl f (s.x, s.y, s.x + s.w, s.y + s.h)
    ⟨b.1, b.2.1, b.2.2.1 - b.1, b.2.2.2 - b.2.1⟩

/-- Modelled from the spec: `PlatformManager.getScreenBounds(screenId)`
returns the rect of the monitor with that id (`0` the primary monitor), and
for `-1` the bounds of the virtual screen.  `PlatformManagerWindows` is not
part of the matching source; the spec fixes only this interface. -/
def getScreenBounds (screens : List Rect) (sid : Int) : Rect :=
  if sid = -1 then virtualScreenBounds screens
  else (screens.getD sid.toNat ⟨0, 0, 0, 0⟩)

/-- The id normalisation of `Screen.__init__` (lines 1497-1498): any
`screenId` that is not an int, or is `< -1`, or is
`>= len(PlatformManager.getScreenDetails())`, is silently replaced by `0`. -/
def screenIdOf (screens : List Rect) (arg : PyVal) : Int :=
  match arg with
  | .int n => if n < -1 ∨ n ≥ (screens.length : Int) then 0 else n
  | _ => 0

/-- `Screen.__init__` (lines 1495-1501): store the normalised id; the rect is
`self.getBounds()` for that id. -/
def screenInit (screens : List Rect) (arg : PyVal) : ScreenState :=
  { screenId := screenIdOf screens arg,
    rect := getScreenBounds screens (screenIdOf screens arg) }

/-! ## Helper lemmas -/

/-- When the matcher oracle never reports a match, the `exists` polling loop
reports no match for every fuel value. -/
theorem existsLoop_none_of_never (env : PollEnv) (hn : ∀ j, env.best j = none)
    (d : ℕ) : ∀ (fuel t k : ℕ), (existsLoop env d t k fuel).1 = none := by
  intro fuel
  induction fuel with
  | zero => intro t k; rfl
  | succ n ih =>
    intro t k
    rw [existsLoop]
    simp only [hn]
    split
    · rfl
    · exact ih _ _

/-- The attempt counter of the `exists` polling loop never decreases. -/
theorem existsLoop_count_ge (env : PollEnv) (d : ℕ) :
    ∀ (fuel t k : ℕ), k ≤ (existsLoop env d t k fuel).2.2 := by
  intro fuel
  induction fuel with
  | zero => intro t k; exact le_refl k
  | succ n ih =>
    intro t k
    rw [existsLoop]
    cases h : env.best k with
    | some m => simp
    | none =>
      simp only
      split
      · simp
      · exact le_trans (Nat.le_succ k) (ih _ _)

/-- With positive fuel, the `exists` polling loop performs at least one
capture-and-match attempt. -/
theorem existsLoop_count_succ (env : PollEnv) (d t k fuel : ℕ) :
    k + 1 ≤ (existsLoop env d t k (fuel + 1)).2.2 := by
  rw [existsLoop]
  cases h : env.best k with
  | some m => simp
  | none =>
    simp only
    split
    · simp
    · exact existsLoop_count_ge env d fuel _ (k + 1)

/-- With the deadline equal to the current clock (timeout 0) and a strictly
positive sleep, the `exists` polling loop performs exactly one attempt. -/
theorem existsLoop_count_timeout_zero (env : PollEnv) (hslp : 1 ≤ env.slp)
    (t k fuel : ℕ) : (existsLoop env t t k (fuel + 1)).2.2 = k + 1 := by
  rw [existsLoop]
  cases h : env.best k with
  | some m => simp
  | none =>
    have hlt : t < t + env.dur k + env.slp := by omega
    simp [hlt]

/-- The attempt counter of `regionExists` never decreases. -/
theorem regionExists_count_ge (screens : List Rect) (st : RegionState)
    (p : PatternData) (env : PollEnv) (seconds : Option ℕ) (t k fuel : ℕ) :
    k ≤ (regionExists screens st p env seconds t k fuel).2.2 := by
  rw [regionExists]
  cases hc : clipRegionToScreen screens st.rect with
  | none => simp
  | some r0 =>
    simp only
    rcases hE : existsLoop env (t + seconds.getD st.autoWaitTimeout) t k fuel
      with ⟨res, t', k'⟩
    have hk : k ≤ k' := by
      have := existsLoop_count_ge env (t + seconds.getD st.autoWaitTimeout)
        fuel t k
      rw [hE] at this
      exact this
    cases res with
    | none => simpa [hE] using hk
    | some pc => simpa [hE] using hk

/-- The attempt counter of the inner `wait` loop never decreases. -/
theorem waitInner_count_ge (screens : List Rect) (st : RegionState)
    (p : PatternData) (env : PollEnv) (d ef : ℕ) :
    ∀ (fuel t k : ℕ), k ≤ (waitInner screens st p env d ef t k fuel).2.2 := by
  intro fuel
  induction fuel with
  | zero => intro t k; exact le_refl k
  | succ n ih =>
    intro t k
    rw [waitInner]
    rcases hE : regionExists screens st p env none t k ef with ⟨res, t', k'⟩
    have hk : k ≤ k' := by
      have := regionExists_count_ge screens st p env none t k ef
      rw [hE] at this
      exact this
    cases res with
    | error e => simp [hk]
    | ok o =>
      cases o with
      | some m => simp [hk]
      | none =>
        simp only
        split
        · simpa using hk
        · exact le_trans hk (ih t' k')

/-- With positive fuel and an on-screen region, `regionExists` performs at
least one capture-and-match attempt. -/
theorem regionExists_count_succ (screens : List Rect) (st : RegionState)
    (p : PatternData) (env : PollEnv) (seconds : Option ℕ) (t k fuel : ℕ)
    (hclip : clipRegionToScreen screens st.rect ≠ none) :
    k + 1 ≤ (regionExists screens st p env seconds t k (fuel + 1)).2.2 := by
  rcases Option.ne_none_iff_exists.mp hclip with ⟨r0, hc⟩
  rw [regionExists, ← hc]
  simp only
  rcases hE : existsLoop env (t + seconds.getD st.autoWaitTimeout) t k
    (fuel + 1) with ⟨res, t', k'⟩
  have hk : k + 1 ≤ k' := by
    have := existsLoop_count_succ env (t + seconds.getD st.autoWaitTimeout)
      t k fuel
    rw [hE] at this
    exact this
  cases res with
  | none => simpa using hk
  | some pc => simpa using hk

/-- With positive fuel and an on-screen region, the inner `wait` loop
performs at least one capture-and-match attempt. -/
theorem waitInner_count_succ (screens : List Rect) (st : RegionState)
    (p : PatternData) (env : PollEnv) (d ef inf t k : ℕ)
    (hclip : clipRegionToScreen screens st.rect ≠ none) :
    k + 1 ≤ (waitInner screens st p env d (ef + 1) t k (inf + 1)).2.2 := by
  rw [waitInner]
  rcases hE : regionExists screens st p env none t k (ef + 1)
    with ⟨res, t', k'⟩
  have hk : k + 1 ≤ k' := by
    have := regionExists_count_succ screens st p env none t k ef hclip
    rw [hE] at this
    exact this
  cases res with
  | error e => simpa using hk
  | ok o =>
    cases o with
    | some m => simpa using hk
    | none =>
      simp only
      split
      · simpa using hk
      · exact le_trans hk (waitInner_count_ge screens st p env d (ef + 1)
          inf t' k')

/-- `regionWait` reports the attempt count of its inner loop unchanged. -/
theorem regionWait_count_eq (screens : List Rect) (st : RegionState)
    (p : PatternData) (env : PollEnv) (seconds : Option ℕ)
    (t k ef inf : ℕ) :
    (regionWait screens st p env seconds t k ef inf).2.2 =
      (waitInner screens st p env (t + seconds.getD st.autoWaitTimeout) ef
        t k inf).2.2 := by
  rw [regionWait]
  rcases hI : waitInner screens st p env (t + seconds.getD st.autoWaitTimeout)
    ef t k inf with ⟨res, t', k'⟩
  cases res with
  | error e => simp
  | ok o => cases o <;> simp

/-- When the matcher oracle never reports a match and the region clips onto
the screen, `regionExists` returns Python `None`. -/
theorem regionExists_none_of_never (screens : List Rect) (st : RegionState)
    (p : PatternData) (env : PollEnv) (seconds : Option ℕ) (t k fuel : ℕ)
    (hclip : clipRegionToScreen screens st.rect ≠ none)
    (hn : ∀ j, env.best j = none) :
    (regionExists screens st p env seconds t k fuel).1 = .ok none := by
  rw [regionExists]
  cases hc : clipRegionToScreen screens st.rect with
  | none => exact absurd hc hclip
  | some r0 =>
    simp only
    rcases hE : existsLoop env (t + seconds.getD st.autoWaitTimeout) t k fuel
      with ⟨res, t', k'⟩
    have hres : res = none := by
      have := existsLoop_none_of_never env hn
        (t + seconds.getD st.autoWaitTimeout) fuel t k
      rw [hE] at this
      exact this
    subst hres
    simp [hE]

/-! ## Claim theorems -/

/-- C1: for a Region with no custom FindFailed handler and response `ABORT`,
`find` on a never-matched pattern raises `FindFailed`; with response `SKIP`
it returns without raising and yields no match (`None`);
`setThrowException(True)` sets the response to `ABORT` and
`setThrowException(False)` sets it to `SKIP`. -/
theorem C1_find_findfailed_protocol (screens : List Rect) (st : RegionState)
    (p : PatternData) (env : PollEnv) (t k ef rf : ℕ)
    (hclip : clipRegionToScreen screens st.rect ≠ none)
    (hnever : ∀ j, env.best j = none) :
    (regionFind screens { st with findFailedResponse := .abort, handler := none }
        p env t k ef (rf + 1)).1 =
      .error (.findFailed ("Could not find pattern " ++ p.path))
    ∧ (regionFind screens { st with findFailedResponse := .skip, handler := none }
        p env t k ef (rf + 1)).1 = .ok none
    ∧ (setThrowException true st).findFailedResponse = .abort
    ∧ (setThrowException false st).findFailedResponse = .skip := by
  refine ⟨?_, ?_, rfl, rfl⟩
  · rw [regionFind, findLoop]
    rcases hE : regionExists screens
        { st with findFailedResponse := .abort, handler := none }
        p env none t k ef with ⟨res, t', k'⟩
    have hres : res = .ok none := by
      have := regionExists_none_of_never screens
        { st with findFailedResponse := .abort, handler := none }
        p env none t k ef hclip hnever
      rw [hE] at this
      exact this
    subst hres
    rfl
  · rw [regionFind, findLoop]
    rcases hE : regionExists screens
        { st with findFailedResponse := .skip, handler := none }
        p env none t k ef with ⟨res, t', k'⟩
    have hres : res = .ok none := by
      have := regionExists_none_of_never screens
        { st with findFailedResponse := .skip, handler := none }
        p env none t k ef hclip hnever
      rw [hE] at this
      exact this
    subst hres
    rfl

/-- C1 witness: the theorem applied to a concrete on-screen region and an
oracle that never matches. -/
theorem C1_find_findfailed_protocol_witness :
    clipRegionToScreen [⟨0, 0, 100, 100⟩] (⟨10, 10, 20, 20⟩ : Rect) ≠ none
    ∧ (∀ j : ℕ,
        (⟨fun _ => none, fun _ => [], fun _ => 0, 1, 8, 8⟩ : PollEnv).best j
          = none)
    ∧ ((regionFind [⟨0, 0, 100, 100⟩]
          { Region.initState ⟨10, 10, 20, 20⟩ with
              findFailedResponse := .abort, handler := none }
          ⟨"button.png", 7/10, (0, 0)⟩
          ⟨fun _ => none, fun _ => [], fun _ => 0, 1, 8, 8⟩ 0 0 10 1).1 =
        .error (.findFailed ("Could not find pattern " ++ "button.png"))
      ∧ (regionFind [⟨0, 0, 100, 100⟩]
          { Region.initState ⟨10, 10, 20, 20⟩ with
              findFailedResponse := .skip, handler := none }
          ⟨"button.png", 7/10, (0, 0)⟩
          ⟨fun _ => none, fun _ => [], fun _ => 0, 1, 8, 8⟩ 0 0 10 1).1 =
        .ok none
      ∧ (setThrowException true (Region.initState ⟨10, 10, 20, 20⟩)).findFailedResponse = .abort
      ∧ (setThrowException false (Region.initState ⟨10, 10, 20, 20⟩)).findFailedResponse = .skip) :=
  ⟨by decide, fun _ => rfl,
    C1_find_findfailed_protocol [⟨0, 0, 100, 100⟩]
      (Region.initState ⟨10, 10, 20, 20⟩) ⟨"button.png", 7/10, (0, 0)⟩
      ⟨fun _ => none, fun _ => [], fun _ => 0, 1, 8, 8⟩ 0 0 10 0
      (by decide) (fun _ => rfl)⟩

/-- C2 counterexample: `findAll` on an on-screen region with
`autoWaitTimeout = 0` (its timeout, since `findAll` takes no timeout
parameter) performs ZERO capture-and-match attempts — its loop consults the
deadline before the first attempt — and returns an empty result even though
the matcher oracle would have reported a match on the very first attempt.
This refutes "each polling search operation performs at least one
capture-and-match attempt before its deadline is first checked" and "with a
timeout of 0 the operation performs exactly one capture/match attempt". -/
theorem C2_counterexample :
    regionFindAll [⟨0, 0, 100, 100⟩]
        { Region.initState ⟨10, 10, 20, 20⟩ with autoWaitTimeout := 0 }
        ⟨"button.png", 7/10, (0, 0)⟩
        ⟨fun _ => some ((3, 4), 9/10), fun _ => [((3, 4), 9/10)],
          fun _ => 0, 1, 8, 8⟩ 5 0 10 = (.ok [], 5, 0)
    ∧ (⟨fun _ => some ((3, 4), 9/10), fun _ => [((3, 4), 9/10)],
          fun _ => 0, 1, 8, 8⟩ : PollEnv).all 0 ≠ [] :=
  ⟨rfl, by decide⟩

/-- C2 amended: `exists` and `wait` perform at least one capture-and-match
attempt before their deadline is first consulted, and `exists` with timeout 0
performs exactly one attempt regardless of the scan interval; but `findAll`
and `waitVanish` consult the deadline before the first attempt, and with a
timeout of 0 they perform zero attempts, `findAll` returning an empty result
and `waitVanish` returning `False`. -/
theorem C2_amended_polling_timing (screens : List Rect) (st : RegionState)
    (p : PatternData) (env : PollEnv) (seconds : Option ℕ)
    (t k fuel ef inf : ℕ)
    (hclip : clipRegionToScreen screens st.rect ≠ none)
    (hslp : 1 ≤ env.slp) :
    k + 1 ≤ (regionExists screens st p env seconds t k (fuel + 1)).2.2
    ∧ (regionExists screens st p env (some 0) t k (fuel + 1)).2.2 = k + 1
    ∧ k + 1 ≤ (regionWait screens st p env seconds t k (ef + 1) (inf + 1)).2.2
    ∧ regionFindAll screens { st with autoWaitTimeout := 0 } p env t k fuel =
        (.ok [], t, k)
    ∧ regionWaitVanish screens st p env (some 0) t k fuel =
        (.ok (some false), t, k) := by
  rcases Option.ne_none_iff_exists.mp hclip with ⟨r0, hc⟩
  refine ⟨?_, ?_, ?_, ?_, ?_⟩
  · rw [regionExists, ← hc]
    simp only
    rcases hE : existsLoop env (t + seconds.getD st.autoWaitTimeout) t k
      (fuel + 1) with ⟨res, t', k'⟩
    have hk : k + 1 ≤ k' := by
      have := existsLoop_count_succ env (t + seconds.getD st.autoWaitTimeout)
        t k fuel
      rw [hE] at this
      exact this
    cases res with
    | none => simpa using hk
    | some pc => simpa using hk
  · rw [regionExists, ← hc]
    simp only
    rcases hE : existsLoop env (t + (some 0).getD st.autoWaitTimeout) t k
      (fuel + 1) with ⟨res, t', k'⟩
    have hk : k' = k + 1 := by
      have := existsLoop_count_timeout_zero env hslp t k fuel
      simp only [Option.getD_some, Nat.add_zero] at hE
      rw [hE] at this
      exact this
    cases res with
    | none => simpa using hk
    | some pc => simpa using hk
  · rw [regionWait_count_eq]
    exact waitInner_count_succ screens st p env _ ef inf t k hclip
  · rw [regionFindAll, ← hc]
    cases fuel with
    | zero => rfl
    | succ n =>
      simp only [findAllLoop, Nat.add_zero, lt_self_iff_false, if_false]
      rfl
  · rw [regionWaitVanish, ← hc]
    cases fuel with
    | zero => rfl
    | succ n =>
      simp only [waitVanishLoop, Option.getD_some, Nat.add_zero,
        lt_self_iff_false, and_false, if_false]
      rfl

/-- C2 witness: the amended timing facts at a concrete on-screen region,
oracle, and sleep duration. -/
theorem C2_amended_polling_timing_witness :
    clipRegionToScreen [⟨0, 0, 100, 100⟩] (⟨10, 10, 20, 20⟩ : Rect) ≠ none
    ∧ (1 : ℕ) ≤ 1
    ∧ (0 + 1 ≤ (regionExists [⟨0, 0, 100, 100⟩]
          (Region.initState ⟨10, 10, 20, 20⟩) ⟨"button.png", 7/10, (0, 0)⟩
          ⟨fun _ => none, fun _ => [], fun _ => 0, 1, 8, 8⟩ none 0 0
          (9 + 1)).2.2
      ∧ (regionExists [⟨0, 0, 100, 100⟩]
          (Region.initState ⟨10, 10, 20, 20⟩) ⟨"button.png", 7/10, (0, 0)⟩
          ⟨fun _ => none, fun _ => [], fun _ => 0, 1, 8, 8⟩ (some 0) 0 0
          (9 + 1)).2.2 = 0 + 1
      ∧ 0 + 1 ≤ (regionWait [⟨0, 0, 100, 100⟩]
          (Region.initState ⟨10, 10, 20, 20⟩) ⟨"button.png", 7/10, (0, 0)⟩
          ⟨fun _ => none, fun _ => [], fun _ => 0, 1, 8, 8⟩ none 0 0
          (9 + 1) (9 + 1)).2.2
      ∧ regionFindAll [⟨0, 0, 100, 100⟩]
          { Region.initState ⟨10, 10, 20, 20⟩ with autoWaitTimeout := 0 }
          ⟨"button.png", 7/10, (0, 0)⟩
          ⟨fun _ => none, fun _ => [], fun _ => 0, 1, 8, 8⟩ 0 0 10 =
          (.ok [], 0, 0)
      ∧ regionWaitVanish [⟨0, 0, 100, 100⟩]
          (Region.initState ⟨10, 10, 20, 20⟩) ⟨"button.png", 7/10, (0, 0)⟩
          ⟨fun _ => none, fun _ => [], fun _ => 0, 1, 8, 8⟩ (some 0) 0 0 10 =
          (.ok (some false), 0, 0)) :=
  ⟨by decide, le_refl 1,
    C2_amended_polling_timing [⟨0, 0, 100, 100⟩]
      (Region.initState ⟨10, 10, 20, 20⟩) ⟨"button.png", 7/10, (0, 0)⟩
      ⟨fun _ => none, fun _ => [], fun _ => 0, 1, 8, 8⟩ none 0 0 9 9 9
      (by decide) (le_refl 1)⟩

/-- When every capture still finds the pattern, the `waitVanish` loop ends
with its flag still truthy, provided the fuel covers the whole timeout
window (each iteration advances the clock by at least the sleep). -/
theorem waitVanishLoop_present (env : PollEnv)
    (hp : ∀ j, (env.best j).isSome = true) (hslp : 1 ≤ env.slp) (d : ℕ) :
    ∀ (fuel t k : ℕ), d ≤ t + fuel →
      (waitVanishLoop env d true t k fuel).1 = true := by
  intro fuel
  induction fuel with
  | zero => intro t k h; rfl
  | succ n ih =>
    intro t k h
    rw [waitVanishLoop]
    split
    · rw [hp k]
      exact ih (t + env.dur k + env.slp) (k + 1) (by omega)
    · rfl

/-- When no capture finds the pattern and the deadline has not yet passed,
the `waitVanish` loop ends with its flag falsy after the first capture. -/
theorem waitVanishLoop_gone (env : PollEnv) (hn : ∀ j, env.best j = none)
    (d t k fuel : ℕ) (hd : t < d) :
    (waitVanishLoop env d true t k (fuel + 2)).1 = false := by
  rw [waitVanishLoop]
  split
  · rw [hn k]
    rw [waitVanishLoop]
    simp
  · next hcond => exact absurd ⟨rfl, hd⟩ hcond

/-- C3 counterexample: on an on-screen region whose pattern has already
vanished (the matcher never reports it), `waitVanish` with a positive
timeout returns Python `None` — a falsy value — not the boolean `true` the
claim states. -/
theorem C3_counterexample :
    (regionWaitVanish [⟨0, 0, 100, 100⟩] (Region.initState ⟨10, 10, 20, 20⟩)
        ⟨"button.png", 7/10, (0, 0)⟩
        ⟨fun _ => none, fun _ => [], fun _ => 0, 1, 8, 8⟩
        (some 5) 0 0 10).1 = .ok none
    ∧ (regionWaitVanish [⟨0, 0, 100, 100⟩] (Region.initState ⟨10, 10, 20, 20⟩)
        ⟨"button.png", 7/10, (0, 0)⟩
        ⟨fun _ => none, fun _ => [], fun _ => 0, 1, 8, 8⟩
        (some 5) 0 0 10).1 ≠ .ok (some true) :=
  ⟨rfl, by decide⟩

/-- C3 amended: `waitVanish` returns Python `None` (falsy, not the boolean
`true`) when the best match drops below the threshold before the timeout,
returns the boolean `false` when the pattern is still present at the
deadline, and never invokes the FindFailed protocol. -/
theorem C3_amended_waitVanish (screens : List Rect) (st : RegionState)
    (p : PatternData) (envG envP : PollEnv) (s t k fuel : ℕ)
    (hclip : clipRegionToScreen screens st.rect ≠ none)
    (hgone : ∀ j, envG.best j = none)
    (hpresent : ∀ j, (envP.best j).isSome = true)
    (hslpP : 1 ≤ envP.slp)
    (hs : 1 ≤ s) (hfuel : s ≤ fuel) :
    (regionWaitVanish screens st p envG (some s) t k (fuel + 2)).1 = .ok
      none
    ∧ (regionWaitVanish screens st p envP (some s) t k fuel).1 =
        .ok (some false)
    ∧ ∀ (env : PollEnv) (seconds : Option ℕ) (t' k' fuel' : ℕ) (msg : String),
        (regionWaitVanish screens st p env seconds t' k' fuel').1 ≠
          .error (.findFailed msg) := by
  rcases Option.ne_none_iff_exists.mp hclip with ⟨r0, hc⟩
  refine ⟨?_, ?_, ?_⟩
  · rw [regionWaitVanish, ← hc]
    simp only
    rcases hL : waitVanishLoop envG (t + (some s).getD st.autoWaitTimeout)
      true t k (fuel + 2) with ⟨m, t', k'⟩
    have hm : m = false := by
      have := waitVanishLoop_gone envG hgone
        (t + (some s).getD st.autoWaitTimeout) t k fuel (by simp; omega)
      rw [hL] at this
      exact this
    subst hm
    simp
  · rw [regionWaitVanish, ← hc]
    simp only
    rcases hL : waitVanishLoop envP (t + (some s).getD st.autoWaitTimeout)
      true t k fuel with ⟨m, t', k'⟩
    have hm : m = true := by
      have := waitVanishLoop_present envP hpresent hslpP
        (t + (some s).getD st.autoWaitTimeout) fuel t k (by simp; omega)
      rw [hL] at this
      exact this
    subst hm
    simp
  · intro env seconds t' k' fuel' msg
    rw [regionWaitVanish, ← hc]
    simp only
    rcases hL : waitVanishLoop env (t' + seconds.getD st.autoWaitTimeout)
      true t' k' fuel' with ⟨m, t2, k2⟩
    cases m <;> simp

/-- C3 witness: the amended facts at concrete inputs — a vanished pattern
yields `None`, a persistent pattern yields `False`, and no `FindFailed` is
raised. -/
theorem C3_amended_waitVanish_witness :
    clipRegionToScreen [⟨0, 0, 100, 100⟩] (⟨10, 10, 20, 20⟩ : Rect) ≠ none
    ∧ ((regionWaitVanish [⟨0, 0, 100, 100⟩]
          (Region.initState ⟨10, 10, 20, 20⟩) ⟨"button.png", 7/10, (0, 0)⟩
          ⟨fun _ => none, fun _ => [], fun _ => 0, 1, 8, 8⟩
          (some 2) 0 0 (5 + 2)).1 = .ok none
      ∧ (regionWaitVanish [⟨0, 0, 100, 100⟩]
          (Region.initState ⟨10, 10, 20, 20⟩) ⟨"button.png", 7/10, (0, 0)⟩
          ⟨fun _ => some ((3, 4), 9/10), fun _ => [((3, 4), 9/10)],
            fun _ => 0, 1, 8, 8⟩ (some 2) 0 0 5).1 = .ok (some false)
      ∧ (regionWaitVanish [⟨0, 0, 100, 100⟩]
          (Region.initState ⟨10, 10, 20, 20⟩) ⟨"button.png", 7/10, (0, 0)⟩
          ⟨fun _ => none, fun _ => [], fun _ => 0, 1, 8, 8⟩
          (some 2) 0 0 7).1 ≠ .error (.findFailed "vanish")) := by
  have h := C3_amended_waitVanish [⟨0, 0, 100, 100⟩]
    (Region.initState ⟨10, 10, 20, 20⟩) ⟨"button.png", 7/10, (0, 0)⟩
    ⟨fun _ => none, fun _ => [], fun _ => 0, 1, 8, 8⟩
    ⟨fun _ => some ((3, 4), 9/10), fun _ => [((3, 4), 9/10)],
      fun _ => 0, 1, 8, 8⟩ 2 0 0 5
    (by decide) (fun _ => rfl) (fun _ => rfl) (le_refl 1) (by omega)
    (by omega)
  exact ⟨by decide, h.1, h.2.1,
    h.2.2 ⟨fun _ => none, fun _ => [], fun _ => 0, 1, 8, 8⟩ (some 2) 0 0 7
      "vanish"⟩

/-- Truncation of an integer-valued rational is that integer. -/
theorem pyInt_intCast (n : Int) : pyInt ((n : Int) : ℚ) = n := by
  rw [pyInt]
  simp

/-- For an in-range index, `getCellIndex` is the identity. -/
theorem getCellIndex_id (count : ℕ) (m : Int) (h1 : 0 ≤ m)
    (h2 : m ≤ (count : Int)) : getCellIndex count m = m := by
  rw [getCellIndex]
  rw [if_neg (by omega), if_neg (by omega)]

/-- Concrete evaluation of `getCell` on `Region(0, 0, 90, 30)` with a 3×3
raster: every cell is 10 wide and 10 tall (both derived from the height,
line 1008), so cell `(i, j)` is `Rect(10*j, 10*i, 10, 10)`. -/
theorem getCell_raster3_90x30 (i j : Int) (hi0 : 0 ≤ i) (hi3 : i ≤ 3)
    (hj0 : 0 ≤ j) (hj3 : j ≤ 3) :
    getCell ⟨0, 0, 90, 30⟩ (3, 3) i j = ⟨10 * j, 10 * i, 10, 10⟩ := by
  rw [getCell]
  rw [if_neg (by norm_num)]
  have hci : getCellIndex (3, 3).1 i = i :=
    getCellIndex_id 3 i hi0 (by exact_mod_cast hi3)
  have hcj : getCellIndex (3, 3).2 j = j :=
    getCellIndex_id 3 j hj0 (by exact_mod_cast hj3)
  simp only [hci, hcj]
  have hx : (((⟨0, 0, 90, 30⟩ : Rect).x : ℚ) +
      (j : ℚ) * (((⟨0, 0, 90, 30⟩ : Rect).h : ℚ) / (((3, 3) : ℕ × ℕ).2 : ℚ)))
      = ((10 * j : Int) : ℚ) := by
    push_cast
    ring_nf
  have hy : (((⟨0, 0, 90, 30⟩ : Rect).y : ℚ) +
      (i : ℚ) * (((⟨0, 0, 90, 30⟩ : Rect).h : ℚ) / (((3, 3) : ℕ × ℕ).1 : ℚ)))
      = ((10 * i : Int) : ℚ) := by
    push_cast
    ring_nf
  have hw : (((⟨0, 0, 90, 30⟩ : Rect).h : ℚ) / (((3, 3) : ℕ × ℕ).2 : ℚ)) =
      ((10 : Int) : ℚ) := by
    norm_num
  rw [hx, hy, hw]
  simp only [pyInt_intCast]

/-- C4 counterexample: `similar` does NOT preserve the target offset — it
rebuilds the pattern from its path, resetting the offset to `(0, 0)`.  A
pattern with offset `(5, 7)` derives a `similar(0.9)` pattern with offset
`(0, 0)`. -/
theorem C4_counterexample :
    (PatternData.similar (7/10) ⟨"button.png", 4/5, (5, 7)⟩ (9/10)).offset ≠
      (⟨"button.png", 4/5, (5, 7)⟩ : PatternData).offset := by
  decide

/-- C4 amended: every derivation leaves the source pattern unmodified (value
semantics; Python mutates only a freshly constructed object) and returns a
new pattern; `similar(s)` sets the similarity to `s` but RESETS the target
offset to `(0, 0)`; `exact()` sets the similarity to `1.0` and resets the
offset to `(0, 0)`; `targetOffset(dx, dy)` preserves the similarity and sets
only the offset. -/
theorem C4_amended_pattern_derivations (minSim : ℚ) (p : PatternData)
    (s : ℚ) (dx dy : Int) :
    p.similar minSim s = ⟨p.path, s, (0, 0)⟩
    ∧ p.exact minSim = ⟨p.path, 1, (0, 0)⟩
    ∧ p.targetOffset minSim dx dy = ⟨p.path, p.similarity, (dx, dy)⟩ :=
  ⟨rfl, rfl, rfl⟩

/-- C5: evaluation of the code at the failing input.  For
`Region(0, 0, 90, 30)` with `setRaster(3, 3)`, the in-range cells are
pairwise distinct (`getCell(0,0) ≠ getCell(2,2)`), but because line 1008
computes `columnWidth = self.h / self._raster[1]` (the region HEIGHT divided
by the column count), every cell is only `30 / 3 = 10` wide instead of
`90 / 3 = 30`: the point `(50, 5)` lies inside the region yet inside none of
the nine cells, so the cells do not tile the rect. -/
theorem C5_getCell_column_width_bug :
    setRaster (0, 0) 3 3 = (3, 3)
    ∧ getCell ⟨0, 0, 90, 30⟩ (3, 3) 0 0 ≠ getCell ⟨0, 0, 90, 30⟩ (3, 3) 2 2
    ∧ (getCell ⟨0, 0, 90, 30⟩ (3, 3) 0 0).w = 10
    ∧ Rect.containsPt ⟨0, 0, 90, 30⟩ 50 5 = true
    ∧ ∀ i : Fin 3, ∀ j : Fin 3,
        (getCell ⟨0, 0, 90, 30⟩ (3, 3) ((i : ℕ) : Int)
            ((j : ℕ) : Int)).containsPt 50 5 = false := by
  refine ⟨by decide, ?_, ?_, by decide, ?_⟩
  · rw [getCell_raster3_90x30 0 0 (by omega) (by omega) (by omega) (by omega),
      getCell_raster3_90x30 2 2 (by omega) (by omega) (by omega) (by omega)]
    decide
  · rw [getCell_raster3_90x30 0 0 (by omega) (by omega) (by omega) (by omega)]
  · intro i j
    have hi : (i : ℕ) < 3 := i.isLt
    have hj : (j : ℕ) < 3 := j.isLt
    rw [getCell_raster3_90x30 ((i : ℕ) : Int) ((j : ℕ) : Int) (by omega)
      (by omega) (by omega) (by omega)]
    simp only [Rect.containsPt, Bool.and_eq_false_iff, decide_eq_false_iff_not]
    omega

/-- C6: a region strictly outside every monitor yields `None` from
`clipRegionToScreen`, and every search operation (`exists`, `findAll`,
`waitVanish`, `find`, `wait`) fails with the out-of-bounds `ValueError`
("Region outside all visible screens") without performing any
capture-and-match attempt. -/
theorem C6_out_of_bounds_everywhere (screens : List Rect) (st : RegionState)
    (p : PatternData) (env : PollEnv) (seconds : Option ℕ)
    (t k fuel ef rf inf : ℕ)
    (hd : ∀ s ∈ screens, rectsDisjoint st.rect s = true) :
    clipRegionToScreen screens st.rect = none
    ∧ regionExists screens st p env seconds t k fuel =
        (.error (.valueError "Region outside all visible screens"), t, k)
    ∧ regionFindAll screens st p env t k fuel =
        (.error (.valueError "Region outside all visible screens"), t, k)
    ∧ regionWaitVanish screens st p env seconds t k fuel =
        (.error (.valueError "Region outside all visible screens"), t, k)
    ∧ regionFind screens st p env t k ef (rf + 1) =
        (.error (.valueError "Region outside all visible screens"), t, k)
    ∧ regionWait screens st p env seconds t k ef (inf + 1) =
        (.error (.valueError "Region outside all visible screens"), t, k) := by
  have hclip : clipRegionToScreen screens st.rect = none := by
    cases screens with
    | nil => rfl
    | cons s0 rest =>
      have h0 : rectsDisjoint st.rect s0 = true := hd s0 (by simp)
      rw [clipRegionToScreen]
      simp [isRegionValid, h0]
  refine ⟨hclip, ?_, ?_, ?_, ?_, ?_⟩
  · rw [regionExists, hclip]
  · rw [regionFindAll, hclip]
  · rw [regionWaitVanish, hclip]
  · rw [regionFind, findLoop, regionExists, hclip]
  · rw [regionWait, waitInner, regionExists, hclip]

/-- C6 witness: the theorem applied to one monitor and a region strictly
beyond it. -/
theorem C6_out_of_bounds_everywhere_witness :
    (∀ s ∈ [(⟨0, 0, 100, 100⟩ : Rect)],
      rectsDisjoint (Region.initState ⟨200, 200, 10, 10⟩).rect s = true)
    ∧ (clipRegionToScreen [⟨0, 0, 100, 100⟩]
          (Region.initState ⟨200, 200, 10, 10⟩).rect = none
      ∧ regionExists [⟨0, 0, 100, 100⟩] (Region.initState ⟨200, 200, 10, 10⟩)
          ⟨"button.png", 7/10, (0, 0)⟩
          ⟨fun _ => none, fun _ => [], fun _ => 0, 1, 8, 8⟩ none 3 0 10 =
          (.error (.valueError "Region outside all visible screens"), 3, 0)
      ∧ regionFindAll [⟨0, 0, 100, 100⟩] (Region.initState ⟨200, 200, 10, 10⟩)
          ⟨"button.png", 7/10, (0, 0)⟩
          ⟨fun _ => none, fun _ => [], fun _ => 0, 1, 8, 8⟩ 3 0 10 =
          (.error (.valueError "Region outside all visible screens"), 3, 0)
      ∧ regionWaitVanish [⟨0, 0, 100, 100⟩]
          (Region.initState ⟨200, 200, 10, 10⟩) ⟨"button.png", 7/10, (0, 0)⟩
          ⟨fun _ => none, fun _ => [], fun _ => 0, 1, 8, 8⟩ none 3 0 10 =
          (.error (.valueError "Region outside all visible screens"), 3, 0)
      ∧ regionFind [⟨0, 0, 100, 100⟩] (Region.initState ⟨200, 200, 10, 10⟩)
          ⟨"button.png", 7/10, (0, 0)⟩
          ⟨fun _ => none, fun _ => [], fun _ => 0, 1, 8, 8⟩ 3 0 10 (0 + 1) =
          (.error (.valueError "Region outside all visible screens"), 3, 0)
      ∧ regionWait [⟨0, 0, 100, 100⟩] (Region.initState ⟨200, 200, 10, 10⟩)
          ⟨"button.png", 7/10, (0, 0)⟩
          ⟨fun _ => none, fun _ => [], fun _ => 0, 1, 8, 8⟩ none 3 0 10
          (0 + 1) =
          (.error (.valueError "Region outside all visible screens"), 3, 0)) :=
  ⟨by decide,
    C6_out_of_bounds_everywhere [⟨0, 0, 100, 100⟩]
      (Region.initState ⟨200, 200, 10, 10⟩) ⟨"button.png", 7/10, (0, 0)⟩
      ⟨fun _ => none, fun _ => [], fun _ => 0, 1, 8, 8⟩ none 3 0 10 10 0 0
      (by decide)⟩

/-- C7: evaluation of the code at the scenario and at the failing input.
With one active APPEAR watcher whose pattern is present: one `check_events`
cycle with no handler queues exactly one event, increments the count, and
deactivates the watcher; a second cycle changes nothing; after explicit
reactivation the watcher fires again.  BUT with a handler registered, the
APPEAR branch both invokes the handler AND appends the event to
`caught_events` (the `append` at line 1363 is unconditional, unlike the
`else` in the VANISH/CHANGE branches), contradicting the claim that the
event is enqueued only when no handler is present. -/
theorem C7_appear_watcher_cycle_and_unconditional_enqueue :
    check_events (fun _ => true) ⟨[⟨.appear, 0, false, true⟩], []⟩ =
      (⟨[⟨.appear, 1, false, false⟩], [⟨.appear, 0⟩]⟩, [])
    ∧ check_events (fun _ => true) ⟨[⟨.appear, 1, false, false⟩],
        [⟨.appear, 0⟩]⟩ =
      (⟨[⟨.appear, 1, false, false⟩], [⟨.appear, 0⟩]⟩, [])
    ∧ check_events (fun _ => true) ⟨[⟨.appear, 1, false, true⟩],
        [⟨.appear, 0⟩]⟩ =
      (⟨[⟨.appear, 2, false, false⟩], [⟨.appear, 0⟩, ⟨.appear, 1⟩]⟩, [])
    ∧ check_events (fun _ => true) ⟨[⟨.appear, 0, true, true⟩], []⟩ =
      (⟨[⟨.appear, 1, true, false⟩], [⟨.appear, 0⟩]⟩, [0]) :=
  ⟨rfl, rfl, rfl, rfl⟩

/-- C8: evaluation of the code at the failing input.  `getEvents` on an
observer with one caught event raises `TypeError` — `check_events` enqueues
`ObserveEvent` objects, but `getEvents` subscripts each drained entry as a
dict (`event["name"]`) — after having already cleared the queue; it returns
normally only when there is nothing to drain. -/
theorem C8_getEvents_raises_type_error :
    getEvents ⟨[⟨.appear, 1, false, false⟩], [⟨.appear, 0⟩]⟩ =
      (.error (.typeError "ObserveEvent object is not subscriptable"),
       ⟨[⟨.appear, 1, false, false⟩], []⟩)
    ∧ getEvents ⟨[⟨.appear, 1, false, false⟩], []⟩ =
      (.ok [], ⟨[⟨.appear, 1, false, false⟩], []⟩) :=
  ⟨rfl, rfl⟩

/-- C9: `clipRegionToScreen` is idempotent — whenever the first application
returns a region (not `None`), applying it again to that region returns the
same region.  Hypotheses: the region and the monitor rects have non-negative
sizes (the documented `Region` invariant `w ≥ 0, h ≥ 0`). -/
theorem C9_clipToScreen_idempotent (screens : List Rect) (r r' : Rect)
    (hw : 0 ≤ r.w) (hh : 0 ≤ r.h)
    (hs : ∀ s ∈ screens, 0 ≤ s.w ∧ 0 ≤ s.h)
    (hclip : clipRegionToScreen screens r = some r') :
    clipRegionToScreen screens r' = some r' := by
  cases screens with
  | nil => simp [clipRegionToScreen, isRegionValid] at hclip
  | cons s0 rest =>
    have hvalid : isRegionValid (s0 :: rest) r = some true := by
      by_contra hne
      rw [clipRegionToScreen, if_neg hne] at hclip
      exact Option.noConfusion hclip
    have hdis : rectsDisjoint r s0 = false := by
      rw [isRegionValid] at hvalid
      have := Option.some.inj hvalid
      simpa using this
    have hfacts : ¬(r.x + r.w < s0.x) ∧ ¬(s0.x + s0.w < r.x) ∧
        ¬(r.y + r.h < s0.y) ∧ ¬(s0.y + s0.h < r.y) := by
      rw [rectsDisjoint] at hdis
      simp only [Bool.or_eq_false_iff, decide_eq_false_iff_not] at hdis
      tauto
    obtain ⟨h1, h2, h3, h4⟩ := hfacts
    obtain ⟨hs0w, hs0h⟩ := hs s0 (by simp)
    have hvalid2 : isRegionValid (s0 :: rest) r = some true := by
      rw [isRegionValid, hdis]
      rfl
    rw [clipRegionToScreen, if_pos hvalid2, clipLoop] at hclip
    by_cases hin : rectInside r s0 = true
    · rw [if_pos hin] at hclip
      have hrr : r' = r := (Option.some.inj hclip).symm
      subst hrr
      rw [clipRegionToScreen, if_pos hvalid2, clipLoop, if_pos hin]
    · rw [if_neg hin, if_neg (by rw [hdis]; exact Bool.false_ne_true)] at hclip
      have hr' : r' =
          ⟨max r.x s0.x, max r.y s0.y, min r.w s0.w, min r.h s0.h⟩ :=
        (Option.some.inj hclip).symm
      subst hr'
      have hdis' : rectsDisjoint
          ⟨max r.x s0.x, max r.y s0.y, min r.w s0.w, min r.h s0.h⟩ s0 =
          false := by
        rw [rectsDisjoint]
        simp only [Bool.or_eq_false_iff, decide_eq_false_iff_not]
        refine ⟨⟨⟨?_, ?_⟩, ?_⟩, ?_⟩ <;> omega
      have hvalid' : isRegionValid (s0 :: rest)
          ⟨max r.x s0.x, max r.y s0.y, min r.w s0.w, min r.h s0.h⟩ =
          some true := by
        rw [isRegionValid, hdis']
        rfl
      rw [clipRegionToScreen, if_pos hvalid', clipLoop]
      by_cases hin' : rectInside
          ⟨max r.x s0.x, max r.y s0.y, min r.w s0.w, min r.h s0.h⟩ s0 = true
      · rw [if_pos hin']
      · rw [if_neg hin', if_neg (by rw [hdis']; exact Bool.false_ne_true)]
        have heq : (⟨max (max r.x s0.x) s0.x, max (max r.y s0.y) s0.y,
            min (min r.w s0.w) s0.w, min (min r.h s0.h) s0.h⟩ : Rect) =
            ⟨max r.x s0.x, max r.y s0.y, min r.w s0.w, min r.h s0.h⟩ := by
          simp only [Rect.mk.injEq]
          refine ⟨?_, ?_, ?_, ?_⟩ <;> omega
        rw [heq]

/-- C9 witness: a region straddling the single monitor; the first clip
produces a region that a second clip maps to itself. -/
theorem C9_clipToScreen_idempotent_witness :
    (0 : Int) ≤ 100 ∧ (∀ s ∈ [(⟨0, 0, 100, 100⟩ : Rect)], (0 : Int) ≤ s.w ∧
      (0 : Int) ≤ s.h)
    ∧ clipRegionToScreen [⟨0, 0, 100, 100⟩] ⟨50, 0, 100, 100⟩ =
        some ⟨50, 0, 100, 100⟩
    ∧ clipRegionToScreen [⟨0, 0, 100, 100⟩] ⟨50, 0, 100, 100⟩ =
        some ⟨50, 0, 100, 100⟩ :=
  ⟨by omega, by decide, by decide,
    C9_clipToScreen_idempotent [⟨0, 0, 100, 100⟩] ⟨50, 0, 100, 100⟩
      ⟨50, 0, 100, 100⟩ (by decide) (by decide) (by decide) (by decide)⟩

/-- C10: `Screen.__init__` silently substitutes id 0 (the primary monitor)
for any `screenId` that is not an integer, is less than `-1`, or is at least
the number of monitors; construction does not fail, and the resulting rect
is the primary monitor bounds. -/
theorem C10_screen_bad_id_defaults_to_primary (screens : List Rect)
    (s0 : Rect) (arg : PyVal)
    (hhead : screens.head? = some s0)
    (hbad : (∀ n : Int, arg ≠ .int n) ∨
      ∃ n : Int, arg = .int n ∧ (n < -1 ∨ (screens.length : Int) ≤ n)) :
    screenInit screens arg = ⟨0, s0⟩ := by
  cases screens with
  | nil => exact absurd hhead (by simp)
  | cons a rest =>
    have ha : s0 = a := by
      have h := hhead
      simp only [List.head?_cons, Option.some.injEq] at h
      exact h.symm
    subst ha
    cases arg with
    | int n =>
      rcases hbad with hni | ⟨m, hm, hrange⟩
      · exact absurd rfl (hni n)
      · have hnm : n = m := by
          cases hm
          rfl
        subst hnm
        have hid : screenIdOf (s0 :: rest) (.int n) = 0 := by
          simp only [screenIdOf]
          rw [if_pos (by omega)]
        rw [screenInit, hid, getScreenBounds, if_neg (by omega)]
        rfl
    | str s => rfl
    | noneV => rfl
    | float q => rfl

/-- C10 witness: a two-monitor layout with an out-of-range id and a
one-monitor layout with a non-integer id, both constructing the primary
screen. -/
theorem C10_screen_bad_id_defaults_to_primary_witness :
    ([(⟨0, 0, 1920, 1080⟩ : Rect), ⟨1920, 0, 1280, 1024⟩].head? =
      some ⟨0, 0, 1920, 1080⟩)
    ∧ screenInit [⟨0, 0, 1920, 1080⟩, ⟨1920, 0, 1280, 1024⟩] (.int 5) =
        ⟨0, ⟨0, 0, 1920, 1080⟩⟩
    ∧ screenInit [⟨0, 0, 1920, 1080⟩] .noneV = ⟨0, ⟨0, 0, 1920, 1080⟩⟩ :=
  ⟨rfl,
    C10_screen_bad_id_defaults_to_primary
      [⟨0, 0, 1920, 1080⟩, ⟨1920, 0, 1280, 1024⟩] ⟨0, 0, 1920, 1080⟩ (.int 5)
      rfl (Or.inr ⟨5, rfl, Or.inr (by decide)⟩),
    C10_screen_bad_id_defaults_to_primary [⟨0, 0, 1920, 1080⟩]
      ⟨0, 0, 1920, 1080⟩ .noneV rfl
      (Or.inl fun n h => PyVal.noConfusion h)⟩
